import Mathlib

/-!
Verification of the per-frame simulation core of the Elemental Survivors
repository (TypeScript, HTML5 Canvas).  The definitions below are shallow
embeddings of the source files: `src/utils/Vector2.ts`, `src/core/Input.ts`,
`src/core/Renderer.ts`, `src/core/Game.ts`, the configuration constants of
`src/config/EnemyConfig.ts`, and the `SpawnSystem` class of the prototype
design document.  JavaScript numbers are modelled as real numbers (ℝ) where
square roots and division occur, and as rationals (ℚ) for the spawn
scheduler, which only uses field arithmetic and comparisons.  Mutable class
state is passed explicitly; observable side effects of a frame (the `dt`
handed to `update`, the render call, the `requestAnimationFrame`
re-subscription) are recorded in an explicit effects record.
-/

noncomputable section

/-- Embedding of `src/utils/Vector2.ts`: an object with two numeric fields. -/
@[ext]
structure Vector2 where
  x : ℝ
  y : ℝ

namespace Vector2

/-- Method `add(other)`: returns `new Vector2(this.x + other.x, this.y + other.y)`. -/
def add (v other : Vector2) : Vector2 :=
  ⟨v.x + other.x, v.y + other.y⟩

/-- Method `subtract(other)`: returns `new Vector2(this.x - other.x, this.y - other.y)`. -/
def subtract (v other : Vector2) : Vector2 :=
  ⟨v.x - other.x, v.y - other.y⟩

/-- Method `multiply(scalar)`: returns `new Vector2(this.x * scalar, this.y * scalar)`. -/
def multiply (v : Vector2) (scalar : ℝ) : Vector2 :=
  ⟨v.x * scalar, v.y * scalar⟩

/-- Method `length()`: returns `Math.sqrt(this.x * this.x + this.y * this.y)`. -/
def length (v : Vector2) : ℝ :=
  Real.sqrt (v.x * v.x + v.y * v.y)

/-- Method `normalize()`: computes `len = this.length()`; if `len === 0` it
returns `new Vector2(0, 0)`, otherwise `new Vector2(this.x / len, this.y / len)`. -/
def normalize (v : Vector2) : Vector2 :=
  let len := v.length
  if len = 0 then ⟨0, 0⟩ else ⟨v.x / len, v.y / len⟩

/-- Method `clone()`: returns `new Vector2(this.x, this.y)`. -/
def clone (v : Vector2) : Vector2 :=
  ⟨v.x, v.y⟩

/-- Static method `distance(v1, v2)`: Euclidean distance between two vectors. -/
def distance (v1 v2 : Vector2) : ℝ :=
  Real.sqrt ((v2.x - v1.x) * (v2.x - v1.x) + (v2.y - v1.y) * (v2.y - v1.y))

/-- Static method `zero()`: returns `new Vector2(0, 0)`. -/
def zero : Vector2 :=
  ⟨0, 0⟩

end Vector2

/-- JavaScript `String.prototype.toLowerCase`, applied character by character
(the key names used by `Input.ts` are ASCII). -/
def toLowerCase (s : String) : String :=
  ⟨s.data.map Char.toLower⟩

/-- The `private keys: Set<string>` field of `src/core/Input.ts`, as the
characteristic function of the set of currently held (lowercased) key names. -/
def KeySet : Type :=
  String → Bool

namespace Input

/-- Method `isKeyPressed(key)`: returns `this.keys.has(key.toLowerCase())`. -/
def isKeyPressed (keys : KeySet) (key : String) : Bool :=
  keys (toLowerCase key)

/-- The net key input of `getMovementDirection()`: the vector
`new Vector2(x, y)` obtained after the four WASD/arrow if-statements have
adjusted the components `x` and `y` starting from `0`. -/
def rawDirection (keys : KeySet) : Vector2 :=
  let x : ℝ := 0
  let y : ℝ := 0
  let y := if isKeyPressed keys ("w") || isKeyPressed keys ("arrowup") then y - 1 else y
  let y := if isKeyPressed keys ("s") || isKeyPressed keys ("arrowdown") then y + 1 else y
  let x := if isKeyPressed keys ("a") || isKeyPressed keys ("arrowleft") then x - 1 else x
  let x := if isKeyPressed keys ("d") || isKeyPressed keys ("arrowright") then x + 1 else x
  ⟨x, y⟩

/-- Method `getMovementDirection()`: builds `direction` from the held keys and
returns `direction.normalize()` when `direction.length() > 0`, else `direction`. -/
def getMovementDirection (keys : KeySet) : Vector2 :=
  let direction := rawDirection keys
  if direction.length > 0 then direction.normalize else direction

end Input

/-- The DOM 2D rendering context; its drawing operations are outside the
simulation state, so it carries no data here. -/
abbrev CanvasRenderingContext2D : Type :=
  Unit

/-- An `HTMLCanvasElement` as seen by `Renderer.ts`: `getContext('2d')` either
yields a context or `null`, and the element has `width` and `height`. -/
structure Canvas where
  context2d : Option CanvasRenderingContext2D
  width : ℝ
  height : ℝ

/-- Embedding of the `Renderer` class of `src/core/Renderer.ts`. -/
structure Renderer where
  ctx : CanvasRenderingContext2D
  width : ℝ
  height : ℝ

namespace Renderer

/-- The `Renderer` constructor: `getContext('2d')`; if the result is `null`
it throws `Error('Failed to get 2D context from canvas')`, otherwise it
stores the context and the canvas dimensions. -/
def make (canvas : Canvas) : Except String Renderer :=
  match canvas.context2d with
  | none => Except.error ("Failed to get 2D context from canvas")
  | some ctx => Except.ok ⟨ctx, canvas.width, canvas.height⟩

/-- Method `getWidth()`. -/
def getWidth (r : Renderer) : ℝ :=
  r.width

/-- Method `getHeight()`. -/
def getHeight (r : Renderer) : ℝ :=
  r.height

end Renderer

/-- The mutable fields of the `Game` class of `src/core/Game.ts`. -/
structure Game where
  renderer : Renderer
  running : Bool
  lastTime : ℝ
  fps : ℕ
  frameCount : ℕ
  fpsUpdateTime : ℝ
  playerPosition : Vector2
  playerSpeed : ℝ

/-- The observable effects of one `gameLoop` invocation: the `deltaTime`
passed to `update` (or `none` when `update` was not called), whether `render`
ran, and whether `requestAnimationFrame(this.gameLoop)` was called again. -/
structure FrameEffects where
  dtPassed : Option ℝ
  rendered : Bool
  nextFrameRequested : Bool

namespace Game

/-- The `Game` constructor: builds the renderer (propagating its failure),
then initialises the fields to their declared initial values and places the
player at `(renderer.getWidth() / 2, renderer.getHeight() / 2)`. -/
def init (canvas : Canvas) : Except String Game :=
  (Renderer.make canvas).map fun renderer =>
    { renderer := renderer
      running := false
      lastTime := 0
      fps := 0
      frameCount := 0
      fpsUpdateTime := 0
      playerPosition := ⟨renderer.getWidth / 2, renderer.getHeight / 2⟩
      playerSpeed := 200 }

/-- Method `start()`: when already running it only logs a warning and returns;
otherwise it sets `running`, records `performance.now()` in `lastTime` and
invokes `gameLoop`.  The boolean reports whether `gameLoop` was invoked. -/
def start (g : Game) (now : ℝ) : Game × Bool :=
  if g.running then (g, false)
  else ({ g with running := true, lastTime := now }, true)

/-- Method `stop()`: sets `running = false`. -/
def stop (g : Game) : Game :=
  { g with running := false }

/-- Method `updateFPS(deltaTime)`: increments `frameCount`, accumulates
`fpsUpdateTime`, and once a full second has accumulated publishes the count
and resets both accumulators to `0`. -/
def updateFPS (g : Game) (deltaTime : ℝ) : Game :=
  let frameCount := g.frameCount + 1
  let fpsUpdateTime := g.fpsUpdateTime + deltaTime
  if fpsUpdateTime ≥ 1 then
    { g with fps := frameCount, frameCount := 0, fpsUpdateTime := 0 }
  else
    { g with frameCount := frameCount, fpsUpdateTime := fpsUpdateTime }

/-- Method `update(deltaTime)`: polls `getMovementDirection`, moves the player
by `direction * (playerSpeed * deltaTime)`, then clamps each coordinate into
`[20, width - 20]` and `[20, height - 20]` with `Math.max`/`Math.min`. -/
def update (g : Game) (keys : KeySet) (deltaTime : ℝ) : Game :=
  let direction := Input.getMovementDirection keys
  let pos := g.playerPosition.add (direction.multiply (g.playerSpeed * deltaTime))
  let px := max 20 (min (g.renderer.getWidth - 20) pos.x)
  let py := max 20 (min (g.renderer.getHeight - 20) pos.y)
  { g with playerPosition := ⟨px, py⟩ }

/-- The `gameLoop` arrow function: returns immediately when `!this.running`;
otherwise computes `deltaTime = (currentTime - this.lastTime) / 1000`, stores
`lastTime`, runs `updateFPS`, `update` and `render`, and re-subscribes via
`requestAnimationFrame`. -/
def gameLoop (g : Game) (keys : KeySet) (currentTime : ℝ) : Game × FrameEffects :=
  if !g.running then (g, ⟨none, false, false⟩)
  else
    let deltaTime := (currentTime - g.lastTime) / 1000
    let g1 := { g with lastTime := currentTime }
    let g2 := g1.updateFPS deltaTime
    let g3 := g2.update keys deltaTime
    (g3, ⟨some deltaTime, true, true⟩)

/-- The on-screen bounds the `update` clamp is meant to maintain. -/
def playerInBounds (g : Game) : Prop :=
  20 ≤ g.playerPosition.x ∧ g.playerPosition.x ≤ g.renderer.width - 20 ∧
  20 ≤ g.playerPosition.y ∧ g.playerPosition.y ≤ g.renderer.height - 20

end Game

namespace EnemyConfig

/-- Spawn settings of `src/config/EnemyConfig.ts`. -/
def INITIAL_SPAWN_INTERVAL : ℚ := 2

/-- Minimum spawn interval constant of `EnemyConfig.ts`. -/
def MIN_SPAWN_INTERVAL : ℚ := 1 / 2

/-- Interval decrease rate constant of `EnemyConfig.ts`. -/
def SPAWN_INTERVAL_DECREASE_RATE : ℚ := 95 / 100

/-- Population cap constant of `EnemyConfig.ts`. -/
def MAX_ENEMIES : ℕ := 100

/-- Off-screen spawn distance constant of `EnemyConfig.ts`. -/
def SPAWN_DISTANCE : ℚ := 50

end EnemyConfig

/-- The mutable fields of the `SpawnSystem` class of the prototype design
document (`spawnTimer`, `gameTime`), together with the number of enemies the
system has handed to `entityManager.addEntity`.  The random off-screen spawn
position computed inside `spawnEnemy` does not feed back into this state. -/
structure SpawnSystem where
  spawnTimer : ℚ
  gameTime : ℚ
  enemyCount : ℕ

namespace SpawnSystem

/-- Method `getSpawnInterval()`: `start = 2.0`, `min = 0.3`,
`progress = Math.min(gameTime / 600, 1)`, returning
`start - (start - min) * progress`. -/
def getSpawnInterval (s : SpawnSystem) : ℚ :=
  let start : ℚ := 2
  let minInterval : ℚ := 3 / 10
  let progress := min (s.gameTime / 600) 1
  start - (start - minInterval) * progress

/-- Method `spawnEnemy(playerPos)`: creates a `BasicEnemy` at a random
position at distance 800 from the player and registers it with
`entityManager.addEntity`, observed here as the enemy count growing by one. -/
def spawnEnemy (s : SpawnSystem) : SpawnSystem :=
  { s with enemyCount := s.enemyCount + 1 }

/-- Method `update(deltaTime, player)`: accumulates `gameTime` and
`spawnTimer`; when `spawnTimer >= spawnInterval` it calls `spawnEnemy` once
and assigns `spawnTimer = 0`. -/
def update (s : SpawnSystem) (deltaTime : ℚ) : SpawnSystem :=
  let s1 := { s with gameTime := s.gameTime + deltaTime, spawnTimer := s.spawnTimer + deltaTime }
  let spawnInterval := s1.getSpawnInterval
  if s1.spawnTimer ≥ spawnInterval then
    { s1.spawnEnemy with spawnTimer := 0 }
  else s1

/-- A run of `n` scheduler ticks of 2 seconds each, from the initial state. -/
def ticks : ℕ → SpawnSystem
  | 0 => ⟨0, 0, 0⟩
  | n + 1 => (ticks n).update 2

end SpawnSystem

/-- A heap of `Vector2` objects, making mutation (or its absence) by the
`Vector2` methods observable: `mem i` is the object stored at reference `i`,
references below `next` are allocated. -/
structure VecHeap where
  mem : ℕ → Vector2
  next : ℕ

namespace VecHeap

/-- Allocation performed by `new Vector2(...)`: the value is stored at the
fresh reference `next`. -/
def alloc (h : VecHeap) (v : Vector2) : VecHeap × ℕ :=
  ({ mem := fun i => if i = h.next then v else h.mem i, next := h.next + 1 }, h.next)

/-- `add` as it acts on the heap: reads the fields of `this` and `other` and
allocates the freshly constructed result. -/
def addM (h : VecHeap) (self other : ℕ) : VecHeap × ℕ :=
  h.alloc ((h.mem self).add (h.mem other))

/-- `subtract` as it acts on the heap. -/
def subtractM (h : VecHeap) (self other : ℕ) : VecHeap × ℕ :=
  h.alloc ((h.mem self).subtract (h.mem other))

/-- `multiply` as it acts on the heap. -/
def multiplyM (h : VecHeap) (self : ℕ) (scalar : ℝ) : VecHeap × ℕ :=
  h.alloc ((h.mem self).multiply scalar)

/-- `normalize` as it acts on the heap (either branch ends in `new Vector2`). -/
def normalizeM (h : VecHeap) (self : ℕ) : VecHeap × ℕ :=
  h.alloc ((h.mem self).normalize)

/-- `clone` as it acts on the heap. -/
def cloneM (h : VecHeap) (self : ℕ) : VecHeap × ℕ :=
  h.alloc ((h.mem self).clone)

end VecHeap

/-- A concrete three-object heap used to instantiate the aliasing theorem. -/
def heap0 : VecHeap :=
  ⟨fun _ => ⟨0, 0⟩, 3⟩

/-- A concrete key set holding exactly the keys `w` and `d`. -/
def keysWD : KeySet :=
  fun s => s == ("w") || s == ("d")

/-! ## Theorems -/

theorem Vector2.length_nonneg (v : Vector2) : 0 ≤ v.length :=
  Real.sqrt_nonneg _

theorem Vector2.length_eq_zero_iff (v : Vector2) : v.length = 0 ↔ v = Vector2.zero := by
  unfold Vector2.length Vector2.zero
  rw [Real.sqrt_eq_zero']
  constructor
  · intro h
    have hx : v.x = 0 := by nlinarith [mul_self_nonneg v.x, mul_self_nonneg v.y]
    have hy : v.y = 0 := by nlinarith [mul_self_nonneg v.x, mul_self_nonneg v.y]
    ext <;> simp [hx, hy]
  · intro h
    rw [h]
    norm_num

theorem Vector2.length_pos_of_ne_zero (v : Vector2) (h : v ≠ Vector2.zero) :
    0 < v.length :=
  lt_of_le_of_ne (Vector2.length_nonneg v)
    (fun h0 => h ((Vector2.length_eq_zero_iff v).mp h0.symm))

theorem Vector2.length_normalize_of_ne_zero (v : Vector2) (h : v ≠ Vector2.zero) :
    (Vector2.normalize v).length = 1 := by
  have hpos : 0 < v.length := Vector2.length_pos_of_ne_zero v h
  have hne : v.length ≠ 0 := ne_of_gt hpos
  have hmul : v.length * v.length = v.x * v.x + v.y * v.y :=
    Real.mul_self_sqrt (add_nonneg (mul_self_nonneg _) (mul_self_nonneg _))
  rw [Vector2.normalize]
  simp only [hne, if_false]
  have key : v.x / v.length * (v.x / v.length) + v.y / v.length * (v.y / v.length) = 1 := by
    field_simp
    linarith [hmul]
  rw [Vector2.length]
  simp only
  rw [key, Real.sqrt_one]

theorem Vector2.normalize_zero : Vector2.normalize Vector2.zero = Vector2.zero := by
  have h0 : (Vector2.zero : Vector2).length = 0 :=
    (Vector2.length_eq_zero_iff Vector2.zero).mpr rfl
  rw [Vector2.normalize]
  simp [h0, Vector2.zero]

/-- C2: for every vector `v`, `v.normalize()` has length 1 unless `v` is the
zero vector, in which case `normalize()` returns the zero vector `(0, 0)` and
never divides by zero. -/
theorem C2_normalize_unit_or_zero :
    Vector2.normalize Vector2.zero = Vector2.zero ∧
    ∀ v : Vector2, v ≠ Vector2.zero → (Vector2.normalize v).length = 1 :=
  ⟨Vector2.normalize_zero, Vector2.length_normalize_of_ne_zero⟩

/-- C2 witness: instantiating the theorem at the concrete vector `(0, 1)`. -/
theorem C2_normalize_unit_or_zero_witness :
    (⟨0, 1⟩ : Vector2) ≠ Vector2.zero ∧ (Vector2.normalize ⟨0, 1⟩).length = 1 := by
  have h : (⟨0, 1⟩ : Vector2) ≠ Vector2.zero := by
    intro hc
    have hy := congrArg Vector2.y hc
    simp [Vector2.zero] at hy
  exact ⟨h, C2_normalize_unit_or_zero.2 _ h⟩

/-- C1 counterexample: with the game running and `lastTime = 0`, a tick at
`currentTime = 500` (half a real second later) passes `dt = 0.5` to the
update step, which exceeds the claimed 0.1-second bound: `gameLoop` performs
no clamping. -/
theorem C1_counterexample :
    (Game.gameLoop
        { renderer := ⟨⟨⟩, 800, 600⟩, running := true, lastTime := 0, fps := 0,
          frameCount := 0, fpsUpdateTime := 0, playerPosition := ⟨400, 300⟩,
          playerSpeed := 200 }
        (fun _ => false) 500).2.dtPassed = some ((1 : ℝ) / 2) ∧
    ¬ ((1 : ℝ) / 2 ≤ 1 / 10) := by
  constructor
  · simp only [Game.gameLoop]
    norm_num
  · norm_num

/-- C1 (amended): on every tick of the running loop the `dt` passed to the
update step is exactly `(currentTime - lastTime) / 1000`, with no upper
bound; whenever more than 100 ms of real time elapsed, `dt` exceeds 0.1 s. -/
theorem C1_dt_unclamped (g : Game) (keys : KeySet) (t : ℝ) (h : g.running = true) :
    (Game.gameLoop g keys t).2.dtPassed = some ((t - g.lastTime) / 1000) ∧
    (100 < t - g.lastTime →
      ∀ dt : ℝ, (Game.gameLoop g keys t).2.dtPassed = some dt → 1 / 10 < dt) := by
  have hmain : (Game.gameLoop g keys t).2.dtPassed = some ((t - g.lastTime) / 1000) := by
    simp [Game.gameLoop, h]
  refine ⟨hmain, ?_⟩
  intro h100 dt hdt
  rw [hmain] at hdt
  have hval := Option.some.inj hdt
  linarith [hval]

/-- C1 witness: instantiating the amended theorem at a running game ticked
700 ms after the previous tick. -/
theorem C1_dt_unclamped_witness :
    (Game.gameLoop
        { renderer := ⟨⟨⟩, 800, 600⟩, running := true, lastTime := 0, fps := 0,
          frameCount := 0, fpsUpdateTime := 0, playerPosition := ⟨400, 300⟩,
          playerSpeed := 200 }
        (fun _ => false) 700).2.dtPassed = some (((700 : ℝ) - 0) / 1000) :=
  (C1_dt_unclamped _ (fun _ => false) 700 rfl).1

theorem SpawnSystem.getSpawnInterval_le_two (s : SpawnSystem) (h : 0 ≤ s.gameTime) :
    SpawnSystem.getSpawnInterval s ≤ 2 := by
  simp only [SpawnSystem.getSpawnInterval]
  have hprog : 0 ≤ min (s.gameTime / 600) 1 :=
    le_min (div_nonneg h (by norm_num)) (by norm_num)
  nlinarith [hprog]

theorem SpawnSystem.getSpawnInterval_at_five :
    SpawnSystem.getSpawnInterval ⟨5, 5, 0⟩ = 2383 / 1200 := by
  have hmin : min ((5 : ℚ) / 600) 1 = 5 / 600 := min_eq_left (by norm_num)
  simp only [SpawnSystem.getSpawnInterval]
  rw [hmin]
  norm_num

/-- C3 counterexample: starting from the fresh scheduler state, a single
`update(5)` elapses more than two full spawn intervals, yet exactly one
enemy is spawned and the timer is reset to exactly `0`, not to the excess
`5 - currentInterval`. -/
theorem C3_counterexample :
    (SpawnSystem.update ⟨0, 0, 0⟩ 5).spawnTimer = 0 ∧
    (SpawnSystem.update ⟨0, 0, 0⟩ 5).enemyCount = 1 ∧
    0 < 5 - SpawnSystem.getSpawnInterval ⟨5, 5, 0⟩ ∧
    SpawnSystem.getSpawnInterval ⟨5, 5, 0⟩ < 5 - SpawnSystem.getSpawnInterval ⟨5, 5, 0⟩ := by
  have hupd : SpawnSystem.update ⟨0, 0, 0⟩ 5 = ⟨0, 0 + 5, 0 + 1⟩ := by
    simp only [SpawnSystem.update, SpawnSystem.spawnEnemy, ge_iff_le]
    rw [if_pos]
    exact le_trans (SpawnSystem.getSpawnInterval_le_two _ (by norm_num)) (by norm_num)
  refine ⟨?_, ?_, ?_, ?_⟩
  · rw [hupd]
  · rw [hupd]
  · rw [SpawnSystem.getSpawnInterval_at_five]
    norm_num
  · rw [SpawnSystem.getSpawnInterval_at_five]
    norm_num

/-- C3 (amended): whenever the accumulated `spawnTimer` reaches the current
interval, `update` spawns exactly one enemy and assigns `spawnTimer = 0`,
discarding the excess time instead of carrying it over or looping. -/
theorem C3_timer_reset_discards_excess (s : SpawnSystem) (dt : ℚ)
    (h : SpawnSystem.getSpawnInterval ⟨s.spawnTimer + dt, s.gameTime + dt, s.enemyCount⟩ ≤
        s.spawnTimer + dt) :
    SpawnSystem.update s dt = ⟨0, s.gameTime + dt, s.enemyCount + 1⟩ := by
  obtain ⟨st, gt, ec⟩ := s
  simp only [SpawnSystem.update, SpawnSystem.spawnEnemy, ge_iff_le]
  rw [if_pos h]

/-- C3 witness: instantiating the amended theorem at the fresh state with a
5-second tick. -/
theorem C3_timer_reset_discards_excess_witness :
    SpawnSystem.update ⟨0, 0, 0⟩ 5 = ⟨0, 5, 1⟩ := by
  have h : SpawnSystem.getSpawnInterval ⟨(0 : ℚ) + 5, (0 : ℚ) + 5, 0⟩ ≤ (0 : ℚ) + 5 :=
    le_trans (SpawnSystem.getSpawnInterval_le_two _ (by norm_num)) (by norm_num)
  simpa using C3_timer_reset_discards_excess ⟨0, 0, 0⟩ 5 h

theorem SpawnSystem.ticks_spec (n : ℕ) :
    (SpawnSystem.ticks n).enemyCount = n ∧ (SpawnSystem.ticks n).spawnTimer = 0 ∧
    0 ≤ (SpawnSystem.ticks n).gameTime := by
  induction n with
  | zero => exact ⟨rfl, rfl, le_refl 0⟩
  | succ n ih =>
    obtain ⟨hc, ht, hg⟩ := ih
    have hint : SpawnSystem.getSpawnInterval
        ⟨(SpawnSystem.ticks n).spawnTimer + 2, (SpawnSystem.ticks n).gameTime + 2,
          (SpawnSystem.ticks n).enemyCount⟩ ≤ (SpawnSystem.ticks n).spawnTimer + 2 := by
      rw [ht]
      refine le_trans (SpawnSystem.getSpawnInterval_le_two _ ?_) (by norm_num)
      show (0 : ℚ) ≤ (SpawnSystem.ticks n).gameTime + 2
      linarith
    have hupd : SpawnSystem.update (SpawnSystem.ticks n) 2 =
        ⟨0, (SpawnSystem.ticks n).gameTime + 2, (SpawnSystem.ticks n).enemyCount + 1⟩ := by
      simp only [SpawnSystem.update, SpawnSystem.spawnEnemy, ge_iff_le]
      rw [if_pos hint]
    have hstep : SpawnSystem.ticks (n + 1) = SpawnSystem.update (SpawnSystem.ticks n) 2 := rfl
    rw [hstep, hupd]
    exact ⟨by simp [hc], rfl, by simp; linarith⟩

/-- C4: the `SpawnSystem` sketch never consults `MAX_ENEMIES`; after 101
two-second scheduler ticks the enemy count is 101, exceeding the configured
population cap of 100 that the repository's task list and `EnemyConfig`
require. -/
theorem C4_population_cap_not_enforced :
    EnemyConfig.MAX_ENEMIES < (SpawnSystem.ticks 101).enemyCount ∧
    EnemyConfig.MAX_ENEMIES = 100 := by
  have h := (SpawnSystem.ticks_spec 101).1
  rw [h]
  exact ⟨by decide, by decide⟩

theorem VecHeap.alloc_mem_of_lt (h : VecHeap) (v : Vector2) (i : ℕ) (hi : i < h.next) :
    (h.alloc v).1.mem i = h.mem i := by
  show (if i = h.next then v else h.mem i) = h.mem i
  rw [if_neg (Nat.ne_of_lt hi)]

/-- C8: every `Vector2` operation (`add`, `subtract`, `multiply`,
`normalize`, `clone`) allocates and returns a fresh object and leaves every
already-allocated object — in particular the receiver and the argument —
unchanged on the heap. -/
theorem C8_operations_leave_heap_unchanged (h : VecHeap) (a b : ℕ) (s : ℝ) (i : ℕ)
    (hi : i < h.next) :
    ((h.addM a b).1.mem i = h.mem i ∧ (h.addM a b).2 = h.next) ∧
    ((h.subtractM a b).1.mem i = h.mem i ∧ (h.subtractM a b).2 = h.next) ∧
    ((h.multiplyM a s).1.mem i = h.mem i ∧ (h.multiplyM a s).2 = h.next) ∧
    ((h.normalizeM a).1.mem i = h.mem i ∧ (h.normalizeM a).2 = h.next) ∧
    ((h.cloneM a).1.mem i = h.mem i ∧ (h.cloneM a).2 = h.next) :=
  ⟨⟨VecHeap.alloc_mem_of_lt h _ i hi, rfl⟩, ⟨VecHeap.alloc_mem_of_lt h _ i hi, rfl⟩,
    ⟨VecHeap.alloc_mem_of_lt h _ i hi, rfl⟩, ⟨VecHeap.alloc_mem_of_lt h _ i hi, rfl⟩,
    ⟨VecHeap.alloc_mem_of_lt h _ i hi, rfl⟩⟩

/-- C8 witness: instantiating the theorem on a concrete three-object heap,
with the receiver at reference 0, the argument at reference 1, and the
observed object at reference 1. -/
theorem C8_operations_leave_heap_unchanged_witness :
    (heap0.addM 0 1).1.mem 1 = heap0.mem 1 ∧ (heap0.addM 0 1).2 = heap0.next ∧
    (heap0.normalizeM 0).1.mem 1 = heap0.mem 1 ∧
    (heap0.cloneM 0).1.mem 1 = heap0.mem 1 := by
  have H := C8_operations_leave_heap_unchanged heap0 0 1 2 1 (by decide)
  exact ⟨H.1.1, H.1.2, H.2.2.2.1.1, H.2.2.2.2.1⟩

/-- C9: with renderer dimensions at least 40 × 40, `Game.update` always
clamps the player position into `[20, W - 20] × [20, H - 20]`, for any `dt`
and any key state; and the initial position `(W / 2, H / 2)` set by the
constructor also satisfies these bounds. -/
theorem C9_player_stays_on_screen :
    (∀ (g : Game) (keys : KeySet) (dt : ℝ),
        40 ≤ g.renderer.width → 40 ≤ g.renderer.height →
        Game.playerInBounds (Game.update g keys dt)) ∧
    (∀ (c : Canvas) (g0 : Game),
        Game.init c = Except.ok g0 → 40 ≤ c.width → 40 ≤ c.height →
        Game.playerInBounds g0) := by
  constructor
  · intro g keys dt hW hH
    simp only [Game.update, Game.playerInBounds, Renderer.getWidth, Renderer.getHeight]
    refine ⟨le_max_left _ _, ?_, le_max_left _ _, ?_⟩
    · exact max_le (by linarith) (min_le_left _ _)
    · exact max_le (by linarith) (min_le_left _ _)
  · intro c g0 hinit hW hH
    cases hc : c.context2d with
    | none =>
      rw [Game.init, Renderer.make, hc] at hinit
      simp [Except.map] at hinit
    | some ctx =>
      rw [Game.init, Renderer.make, hc] at hinit
      simp [Except.map] at hinit
      rw [← hinit]
      simp only [Game.playerInBounds, Renderer.getWidth, Renderer.getHeight]
      refine ⟨by linarith, by linarith, by linarith, by linarith⟩

/-- C9 witness: instantiating the theorem on an 800 × 600 renderer with the
player far off screen before the clamp, and on a fresh 800 × 600 canvas. -/
theorem C9_player_stays_on_screen_witness :
    Game.playerInBounds
      (Game.update
        { renderer := ⟨⟨⟩, 800, 600⟩, running := true, lastTime := 0, fps := 0,
          frameCount := 0, fpsUpdateTime := 0, playerPosition := ⟨-50, 1000⟩,
          playerSpeed := 200 } keysWD 3) :=
  C9_player_stays_on_screen.1 _ keysWD 3 (by norm_num) (by norm_num)

/-- C5: for every keyboard state, `Input.getMovementDirection()` returns a
vector of length 1 whenever the net key input is nonzero, and the zero vector
when no movement keys are held or opposing keys cancel out. -/
theorem C5_movement_direction_normalized (keys : KeySet) :
    (Input.rawDirection keys ≠ Vector2.zero →
      (Input.getMovementDirection keys).length = 1) ∧
    (Input.rawDirection keys = Vector2.zero →
      Input.getMovementDirection keys = Vector2.zero) := by
  constructor
  · intro h
    have hpos : 0 < (Input.rawDirection keys).length :=
      Vector2.length_pos_of_ne_zero _ h
    simp only [Input.getMovementDirection]
    rw [if_pos hpos]
    exact Vector2.length_normalize_of_ne_zero _ h
  · intro h
    have h0 : (Input.rawDirection keys).length = 0 :=
      (Vector2.length_eq_zero_iff _).mpr h
    simp only [Input.getMovementDirection]
    rw [if_neg (by rw [h0]; exact lt_irrefl 0)]
    exact h

/-- C5 witness: with `w` and `d` held the net input is the diagonal `(1, -1)`
and the returned direction has length 1. -/
theorem C5_movement_direction_normalized_witness :
    Input.rawDirection keysWD ≠ Vector2.zero ∧
    (Input.getMovementDirection keysWD).length = 1 := by
  have hw : Input.isKeyPressed keysWD ("w") = true := by decide
  have hup : Input.isKeyPressed keysWD ("arrowup") = false := by decide
  have hs : Input.isKeyPressed keysWD ("s") = false := by decide
  have hdn : Input.isKeyPressed keysWD ("arrowdown") = false := by decide
  have ha : Input.isKeyPressed keysWD ("a") = false := by decide
  have hlf : Input.isKeyPressed keysWD ("arrowleft") = false := by decide
  have hd : Input.isKeyPressed keysWD ("d") = true := by decide
  have hrt : Input.isKeyPressed keysWD ("arrowright") = false := by decide
  have hraw : Input.rawDirection keysWD = ⟨1, -1⟩ := by
    simp [Input.rawDirection, hw, hup, hs, hdn, ha, hlf, hd, hrt]
  have hne : Input.rawDirection keysWD ≠ Vector2.zero := by
    rw [hraw]
    intro hc
    have hx := congrArg Vector2.x hc
    simp [Vector2.zero] at hx
  exact ⟨hne, (C5_movement_direction_normalized keysWD).1 hne⟩

/-- C6: constructing the `Renderer` fails if and only if the canvas's 2D
context is unavailable; the error propagates through the `Game` constructor,
so the run cannot start, while with an available context construction
succeeds. -/
theorem C6_renderer_requires_context (c : Canvas) :
    (c.context2d = none →
      Renderer.make c = Except.error ("Failed to get 2D context from canvas") ∧
      Game.init c = Except.error ("Failed to get 2D context from canvas")) ∧
    (∀ ctx, c.context2d = some ctx →
      Renderer.make c = Except.ok ⟨ctx, c.width, c.height⟩) := by
  constructor
  · intro hc
    constructor
    · simp [Renderer.make, hc]
    · simp [Game.init, Renderer.make, hc, Except.map]
  · intro ctx hc
    simp [Renderer.make, hc]

/-- C6 witness: instantiating the theorem at a canvas without a context and
at one with a context. -/
theorem C6_renderer_requires_context_witness :
    Renderer.make ⟨none, 640, 480⟩ = Except.error ("Failed to get 2D context from canvas") ∧
    Game.init ⟨none, 640, 480⟩ = Except.error ("Failed to get 2D context from canvas") ∧
    Renderer.make ⟨some ⟨⟩, 640, 480⟩ = Except.ok ⟨⟨⟩, 640, 480⟩ := by
  refine ⟨?_, ?_, ?_⟩
  · exact ((C6_renderer_requires_context ⟨none, 640, 480⟩).1 rfl).1
  · exact ((C6_renderer_requires_context ⟨none, 640, 480⟩).1 rfl).2
  · exact (C6_renderer_requires_context ⟨some ⟨⟩, 640, 480⟩).2 ⟨⟩ rfl

/-- C7: after `stop()`, the next `gameLoop` invocation leaves the state
unchanged, performs no update or render, and does not request another
animation frame. -/
theorem C7_stop_halts_loop (g : Game) (keys : KeySet) (t : ℝ) :
    Game.gameLoop (Game.stop g) keys t =
      (Game.stop g, { dtPassed := none, rendered := false, nextFrameRequested := false }) := by
  simp [Game.gameLoop, Game.stop]

/-- C10: calling `start()` while the game is already running leaves the whole
state (in particular `running` and `lastTime`) unchanged and does not invoke
`gameLoop` a second time. -/
theorem C10_start_noop_when_running (g : Game) (now : ℝ) (h : g.running = true) :
    Game.start g now = (g, false) := by
  simp [Game.start, h]

/-- C10 witness: instantiating the theorem at a concrete running game. -/
theorem C10_start_noop_when_running_witness :
    Game.start
      { renderer := ⟨⟨⟩, 800, 600⟩, running := true, lastTime := 17, fps := 0,
        frameCount := 0, fpsUpdateTime := 0, playerPosition := ⟨400, 300⟩,
        playerSpeed := 200 } 123 =
      ({ renderer := ⟨⟨⟩, 800, 600⟩, running := true, lastTime := 17, fps := 0,
         frameCount := 0, fpsUpdateTime := 0, playerPosition := ⟨400, 300⟩,
         playerSpeed := 200 }, false) :=
  C10_start_noop_when_running _ 123 rfl

end
